import Mathlib

/-
Verification development for the StreamVix AnimeUnity provider.

Shallow embedding of:
  * src/utils/mediaflow.ts            (formatMediaFlowUrl, extractFilename)
  * src/providers/animeunity-provider.ts    (filterMainVersions, handleKitsuRequest,
                                             capitalize, the movie and series loops)
  * src/providers/animeunity-provider.tsBK  (searchAllVersions, the embed-link push)
  * src/types/animeunity.ts           (AnimeUnityConfig, StreamForStremio, ...)

JavaScript strings are modelled as Lean `String`; JS exceptions are modelled with
`Except String` (a thrown value is `.error`), and `try { .. } catch { .. }` becomes a
`match` on the `Except` result.  External calls (the Python scraper subprocess and the
Kitsu metadata lookup, both outside this repository) are modelled as an explicit
environment of fallible functions.  Case conversion and whitespace trimming use Lean's
ASCII primitives; the repository only manipulates ASCII titles and URLs in the code
under verification.
-/

namespace StreamVix

/-! ## JS string primitives -/

/-- JS `s.includes(pat)` on lists of characters: `pat` occurs as a contiguous
substring of `s`. -/
def charsContains (pat : List Char) : List Char → Bool
  | [] => pat.isEmpty
  | c :: rest => pat.isPrefixOf (c :: rest) || charsContains pat rest

/-- JS `s.includes(pat)` on strings. -/
def strContains (s pat : String) : Bool :=
  charsContains pat.data s.data

/-- JS `s.toLowerCase()`, on the ASCII range the repository manipulates. -/
def jsToLower (s : String) : String :=
  String.mk (s.data.map Char.toLower)

/-- JS `s.trim()`: strip leading and trailing whitespace. -/
def jsTrim (s : String) : String :=
  String.mk (((s.data.dropWhile Char.isWhitespace).reverse.dropWhile
    Char.isWhitespace).reverse)

/-- Splits a character list on a single separator character; like JS
`s.split(sep)`, the result always has one more part than there are separators. -/
def splitOnChar (sep : Char) : List Char → List (List Char)
  | [] => [[]]
  | c :: rest =>
    if c = sep then [] :: splitOnChar sep rest
    else
      match splitOnChar sep rest with
      | [] => [[c]]
      | p :: ps => (c :: p) :: ps

/-- Embeds `capitalize` from animeunity-provider.ts:
`if (!str) return str; return str.charAt(0).toUpperCase() + str.slice(1)`. -/
def capitalize (str : String) : String :=
  match str.data with
  | [] => str
  | c :: rest => String.mk (c.toUpper :: rest)

/-- Matcher for the literal part `\(ITA\)` (case-insensitive) of the regex
`/\s*\(ITA\)/i`: if the list starts with `(ita)` up to case, return the remainder. -/
def itaParenAt (l : List Char) : Option (List Char) :=
  match l with
  | '(' :: a :: b :: c :: ')' :: rest =>
    if a.toLower = 'i' ∧ b.toLower = 't' ∧ c.toLower = 'a' then some rest else none
  | _ => none

/-- Matcher for `/\s*\(ITA\)/i` anchored at the current position: consume a greedy
whitespace run, then `(ita)`.  (Backtracking into the whitespace run cannot help,
since a shorter run leaves a whitespace character where `(` is required.) -/
def itaRegexAt (l : List Char) : Option (List Char) :=
  match l with
  | [] => none
  | c :: rest => if c.isWhitespace then itaRegexAt rest else itaParenAt (c :: rest)

/-- JS `name.replace(/\s*\(ITA\)/i, '')`: remove the first (leftmost) match only. -/
def replaceItaOnce : List Char → List Char
  | [] => []
  | c :: rest =>
    match itaRegexAt (c :: rest) with
    | some rem => rem
    | none => c :: replaceItaOnce rest

/-- Embeds `version.name.replace(/\s*\(ITA\)/i, '').trim()` from the series branch. -/
def cleanName (name : String) : String :=
  jsTrim (String.mk (replaceItaOnce name.data))

/-! ## encodeURIComponent / decodeURIComponent -/

/-- Characters `encodeURIComponent` leaves unescaped: ASCII alphanumerics and
`- _ . ! ~ * ' ( )`. -/
def isUriUnreserved (c : Char) : Bool :=
  c.isAlpha || c.isDigit ||
    (c = '-' || c = '_' || c = '.' || c = '!' || c = '~' || c = '*' ||
     c = Char.ofNat 39 || c = '(' || c = ')')

/-- Uppercase hexadecimal digit for a value below 16. -/
def hexDigitChar (n : Nat) : Char :=
  if n < 10 then Char.ofNat ('0'.toNat + n) else Char.ofNat ('A'.toNat + n - 10)

/-- UTF-8 byte sequence of a character, as natural numbers below 256. -/
def utf8Bytes (c : Char) : List Nat :=
  let v := c.toNat
  if v < 0x80 then [v]
  else if v < 0x800 then [0xC0 + v / 64, 0x80 + v % 64]
  else if v < 0x10000 then [0xE0 + v / 4096, 0x80 + (v / 64) % 64, 0x80 + v % 64]
  else [0xF0 + v / 262144, 0x80 + (v / 4096) % 64, 0x80 + (v / 64) % 64, 0x80 + v % 64]

/-- Percent-escape of one byte, e.g. 47 becomes `%2F`. -/
def percentByte (b : Nat) : List Char :=
  ['%', hexDigitChar (b / 16), hexDigitChar (b % 16)]

/-- JS `encodeURIComponent`: unreserved characters pass through, every other
character is replaced by the percent-escapes of its UTF-8 bytes. -/
def encodeURIComponent (s : String) : String :=
  String.mk (s.data.flatMap fun c =>
    if isUriUnreserved c then [c] else (utf8Bytes c).flatMap percentByte)

/-- Value of one hexadecimal digit character, if it is one (codes 48-57 are the
decimal digits, 65-70 and 97-102 the upper- and lowercase hex letters). -/
def hexVal (c : Char) : Option Nat :=
  let n := c.toNat
  if 48 ≤ n ∧ n ≤ 57 then some (n - 48)
  else if 65 ≤ n ∧ n ≤ 70 then some (n - 55)
  else if 97 ≤ n ∧ n ≤ 102 then some (n - 87)
  else none

/-- One continuation byte `%XX` with value in `0x80..0xBF`; helper for
`decodeChars`. -/
def contByte (a b : Char) : Option Nat :=
  match hexVal a, hexVal b with
  | some ha, some hb =>
    let v := ha * 16 + hb
    if 0x80 ≤ v ∧ v < 0xC0 then some v else none
  | _, _ => none

/-- JS `decodeURIComponent` on a character list: percent-escapes are decoded as
UTF-8 sequences (continuation bytes must themselves be escapes); a malformed
escape, stray or missing continuation byte, overlong encoding, surrogate or
out-of-range code point throws `URIError`, modelled as `none`. -/
def decodeChars : List Char → Option (List Char)
  | [] => some []
  | '%' :: a :: b :: rest =>
    match hexVal a, hexVal b with
    | some ha, some hb =>
      let b0 := ha * 16 + hb
      if b0 < 0x80 then
        (decodeChars rest).map (Char.ofNat b0 :: ·)
      else if b0 < 0xC0 then none
      else if b0 < 0xE0 then
        match rest with
        | '%' :: a1 :: b1 :: r1 =>
          match contByte a1 b1 with
          | some c1 =>
            let v := (b0 - 0xC0) * 64 + (c1 - 0x80)
            if v < 0x80 then none
            else (decodeChars r1).map (Char.ofNat v :: ·)
          | none => none
        | _ => none
      else if b0 < 0xF0 then
        match rest with
        | '%' :: a1 :: b1 :: '%' :: a2 :: b2 :: r2 =>
          match contByte a1 b1, contByte a2 b2 with
          | some c1, some c2 =>
            let v := (b0 - 0xE0) * 4096 + (c1 - 0x80) * 64 + (c2 - 0x80)
            if v < 0x800 then none
            else if 0xD800 ≤ v ∧ v < 0xE000 then none
            else (decodeChars r2).map (Char.ofNat v :: ·)
          | _, _ => none
        | _ => none
      else if b0 < 0xF8 then
        match rest with
        | '%' :: a1 :: b1 :: '%' :: a2 :: b2 :: '%' :: a3 :: b3 :: r3 =>
          match contByte a1 b1, contByte a2 b2, contByte a3 b3 with
          | some c1, some c2, some c3 =>
            let v := (b0 - 0xF0) * 262144 + (c1 - 0x80) * 4096 +
              (c2 - 0x80) * 64 + (c3 - 0x80)
            if v < 0x10000 then none
            else if v > 0x10FFFF then none
            else (decodeChars r3).map (Char.ofNat v :: ·)
          | _, _, _ => none
        | _ => none
      else none
    | _, _ => none
  | '%' :: _ => none
  | c :: rest => (decodeChars rest).map (c :: ·)

/-- JS `decodeURIComponent` on strings; `none` models a thrown `URIError`. -/
def decodeURIComponent (s : String) : Option String :=
  (decodeChars s.data).map String.mk

/-! ## extractFilename / formatMediaFlowUrl  (src/utils/mediaflow.ts) -/

/-- First match of the regex `/filename=([^&]+)/` in a character list: the capture
is the maximal nonempty run of non-`&` characters after the leftmost occurrence of
`filename=` at which that run is nonempty. -/
def findFilenameMatch : List Char → Option (List Char)
  | [] => none
  | c :: rest =>
    if "filename=".data.isPrefixOf (c :: rest) then
      let cap := ((c :: rest).drop 9).takeWhile (· != '&')
      if cap.isEmpty then findFilenameMatch rest else some cap
    else findFilenameMatch rest

/-- Splits a character list at the first occurrence of `://`, returning the part
before it and the part after it. -/
def splitSchemeRest : List Char → Option (List Char × List Char)
  | [] => none
  | c :: rest =>
    if "://".data.isPrefixOf (c :: rest) then some ([], (c :: rest).drop 3)
    else (splitSchemeRest rest).map fun p => (c :: p.1, p.2)

/-- Modelled from `new URL(url).pathname` (WHATWG URL), restricted to the absolute
`scheme://host/path` shape this codebase passes: the path component between the
authority and the first `?` or `#`, or `/` when absent.  A string with no
`scheme://` prelude or an empty host makes the `URL` constructor throw, modelled
as `none`. -/
def urlPathname (url : String) : Option String :=
  match splitSchemeRest url.data with
  | none => none
  | some (scheme, rest) =>
    match scheme with
    | [] => none
    | c :: _ =>
      if c.isAlpha then
        let host := rest.takeWhile fun x => x != '/' && x != '?' && x != '#'
        if host.isEmpty then none
        else
          match rest.drop host.length with
          | '/' :: after => some (String.mk ('/' :: after.takeWhile fun x => x != '?' && x != '#'))
          | _ => some "/"
      else none

/-- Embeds `extractFilename` from src/utils/mediaflow.ts: the decoded capture of
`/filename=([^&]+)/` when it matches, otherwise the last `/`-separated segment of
`new URL(url).pathname`, or `video.mp4` when that segment is empty.  `none` models
a thrown `URIError` (malformed escapes) or `TypeError` (invalid URL). -/
def extractFilename (url : String) : Option String :=
  match findFilenameMatch url.data with
  | some cap => decodeURIComponent (String.mk cap)
  | none =>
    (urlPathname url).map fun p =>
      let seg := String.mk ((splitOnChar '/' p.data).getLastD [])
      if seg = "" then "video.mp4" else seg

/-- Embeds `formatMediaFlowUrl` from src/utils/mediaflow.ts. -/
def formatMediaFlowUrl (mp4Url mfpUrl mfpPassword : String) : Option String :=
  let encodedUrl := encodeURIComponent mp4Url
  (extractFilename mp4Url).map fun filename =>
    mfpUrl ++ "/proxy/stream/" ++ filename ++ "?d=" ++ encodedUrl ++
      "&api_password=" ++ mfpPassword

/-- Filename extraction as claim C6 words it (for comparison with the code): the
decoded value of a `filename=` QUERY parameter of the URL — a `&`-separated
component of the part after the first `?` that starts with `filename=` — if
present, else the last path segment, else `video.mp4`. -/
def extractFilenameClaimed (url : String) : Option String :=
  let query := (splitOnChar '?' url.data).tail.foldl (fun a b => a ++ '?' :: b) [] |>.drop 1
  match (splitOnChar '&' query).find? (fun p => "filename=".data.isPrefixOf p) with
  | some p => decodeURIComponent (String.mk (p.drop 9))
  | none =>
    (urlPathname url).map fun p =>
      let seg := String.mk ((splitOnChar '/' p.data).getLastD [])
      if seg = "" then "video.mp4" else seg

/-- Proxy rewrite as claim C6 words it, built on `extractFilenameClaimed`. -/
def formatMediaFlowUrlClaimed (mp4Url mfpUrl mfpPassword : String) : Option String :=
  (extractFilenameClaimed mp4Url).map fun filename =>
    mfpUrl ++ "/proxy/stream/" ++ filename ++ "?d=" ++ encodeURIComponent mp4Url ++
      "&api_password=" ++ mfpPassword

/-! ## Data model  (interfaces in animeunity-provider.ts and types/animeunity.ts) -/

/-- Interface `AnimeUnitySearchResult` of animeunity-provider.ts. -/
structure AnimeUnitySearchResult where
  id : Nat
  slug : String
  name : String
  episodes_count : Nat
deriving DecidableEq, Repr

/-- Interface `AnimeUnityEpisode` of animeunity-provider.ts (the `number` field is
a string there; the stale copy in types/animeunity.ts declares it as a number but
is not imported by the provider). -/
structure AnimeUnityEpisode where
  id : Nat
  number : String
  name : Option String := none
deriving DecidableEq, Repr

/-- Interface `AnimeUnityStreamData` of animeunity-provider.ts; an absent field of
the scraper's JSON is the empty string (falsy, as the provider only tests
truthiness). -/
structure AnimeUnityStreamData where
  episode_page : String
  embed_url : String
  mp4_url : String
deriving DecidableEq, Repr

/-- Interface `StreamForStremio` of types/animeunity.ts (behaviorHints carries the
single field the provider ever writes). -/
structure BehaviorHints where
  notWebReady : Bool
deriving DecidableEq, Repr

/-- Final output unit pushed onto `streams` by the provider. -/
structure StreamForStremio where
  title : String
  url : String
  behaviorHints : BehaviorHints
deriving DecidableEq, Repr

/-- Interface `AnimeUnityConfig` of types/animeunity.ts. -/
structure AnimeUnityConfig where
  mfpUrl : String
  mfpPassword : String
  bothLink : Bool
  enabled : Bool
deriving DecidableEq, Repr

deriving instance DecidableEq for Except

/-- A `(version, language_type)` pair as produced by `filterMainVersions` and
`searchAllVersions`. -/
structure TaggedVersion where
  version : AnimeUnitySearchResult
  language_type : String
deriving DecidableEq, Repr

/-- Result of `KitsuProvider.parseKitsuId` (providers/kitsu.ts, outside the given
sources): the numeric Kitsu id plus optional season/episode numbers and the movie
flag, as destructured by `handleKitsuRequest`.  `none` models a JS `undefined`
field. -/
structure ParsedKitsuId where
  kitsuId : String
  seasonNumber : Option Nat
  episodeNumber : Option Nat
  isMovie : Bool
deriving DecidableEq, Repr

/-- The part of `KitsuProvider.getAnimeInfo`'s result that `handleKitsuRequest`
reads. -/
structure AnimeInfo where
  title : String
deriving DecidableEq, Repr

/-- Environment of external calls: the Kitsu metadata lookup (providers/kitsu.ts)
and the Python scraper subprocess (`invokePythonScraper`), every one of which can
throw — `.error` models a rejected promise / thrown exception. -/
structure ScraperEnv where
  parseKitsuId : String → Except String ParsedKitsuId
  getAnimeInfo : String → Except String (Option AnimeInfo)
  normalizeTitle : String → String
  search : String → Except String (List AnimeUnitySearchResult)
  searchDubbed : String → Except String (List AnimeUnitySearchResult)
  get_episodes : Nat → Except String (List AnimeUnityEpisode)
  get_stream : Nat → String → Nat → Except String AnimeUnityStreamData

/-! ## Version aggregation -/

/-- The `filtered` list inside `filterMainVersions` (animeunity-provider.ts):
results whose trimmed lowercased name equals the base title or the base title
followed by ` (ita)`. -/
def mainFiltered (results : List AnimeUnitySearchResult) (baseTitle : String) :
    List AnimeUnitySearchResult :=
  let normalizedBase := jsToLower (jsTrim baseTitle)
  let itaTitle := normalizedBase ++ " (ita)"
  results.filter fun r =>
    let name := jsToLower (jsTrim r.name)
    name == normalizedBase || name == itaTitle

/-- The classification shared by `filterMainVersions` (exact-name branch) and
`searchAllVersions` of tsBK: tag `ITA` when the lowercased display name contains
`ita`, `SUB` otherwise. -/
def tagByName (r : AnimeUnitySearchResult) : TaggedVersion :=
  { version := r
    language_type := if strContains (jsToLower r.name) "ita" then "ITA" else "SUB" }

/-- Embeds `filterMainVersions` from animeunity-provider.ts: keep the exact-name
matches tagged by the `ita` marker in their name, or fall back to the first two
results tagged positionally (second one `ITA`). -/
def filterMainVersions (results : List AnimeUnitySearchResult) (baseTitle : String) :
    List TaggedVersion :=
  if (mainFiltered results baseTitle).length > 0 then
    (mainFiltered results baseTitle).map tagByName
  else
    (results.take 2).enum.map fun p =>
      { version := p.2, language_type := if p.1 == 1 then "ITA" else "SUB" }

/-- Model of JS `promise.catch(() => [])` applied to a variant search. -/
def catchEmpty (e : Except String (List AnimeUnitySearchResult)) :
    List AnimeUnitySearchResult :=
  match e with
  | .ok l => l
  | .error _ => []

/-- Embeds `searchAllVersions` from animeunity-provider.tsBK: run the plain and
`--dubbed` searches (each failure caught to an empty list), concatenate sub then
dub results, and tag every result by whether its lowercased name contains `ita`. -/
def searchAllVersions (env : ScraperEnv) (title : String) : List TaggedVersion :=
  (catchEmpty (env.search title) ++ catchEmpty (env.searchDubbed title)).map tagByName

/-! ## JS helpers for option-typed numbers -/

/-- JS `String(x)` on a possibly-undefined number. -/
def jsStringOfOptNat : Option Nat → String
  | none => "undefined"
  | some n => toString n

/-- JS truthiness of a possibly-undefined number (`undefined` and `0` are falsy). -/
def jsTruthyNat : Option Nat → Bool
  | none => false
  | some n => n != 0

/-- JS `seasonNumber || 1`. -/
def jsOrOne : Option Nat → Nat
  | none => 1
  | some n => if n = 0 then 1 else n

/-! ## Movie branch of handleKitsuRequest (animeunity-provider.ts) -/

/-- The movie branch's `episodes.find(ep => ep.number === "1")`. -/
def movieTargetEpisode (episodes : List AnimeUnityEpisode) : Option AnimeUnityEpisode :=
  episodes.find? fun ep => ep.number == "1"

/-- One iteration of the movie-branch `for` loop; no `try`/`catch` exists here, so
a failed scraper call propagates as `.error`. -/
def movieProcessVersion (env : ScraperEnv) (tv : TaggedVersion) :
    Except String (List StreamForStremio) :=
  match env.get_episodes tv.version.id with
  | .error e => .error e
  | .ok episodes =>
    match movieTargetEpisode episodes with
    | none => .ok []
    | some targetEpisode =>
      match env.get_stream tv.version.id tv.version.slug targetEpisode.id with
      | .error e => .error e
      | .ok streamResult =>
        if streamResult.mp4_url ≠ "" then
          .ok [{ title := "🎬 AnimeUnity " ++ tv.language_type ++ " (Movie)"
                 url := streamResult.mp4_url
                 behaviorHints := { notWebReady := true } }]
        else .ok []

/-- The whole movie-branch loop, accumulating pushed streams in version order. -/
def movieLoop (env : ScraperEnv) : List TaggedVersion → Except String (List StreamForStremio)
  | [] => .ok []
  | tv :: rest =>
    match movieProcessVersion env tv with
    | .error e => .error e
    | .ok s =>
      match movieLoop env rest with
      | .error e => .error e
      | .ok r => .ok (s ++ r)

/-! ## Series branch of handleKitsuRequest (animeunity-provider.ts) -/

/-- The series branch's `episodes.find(ep => String(ep.number) === String(episodeNumber))`
(`ep.number` is already a string). -/
def seriesTargetEpisode (episodeNumber : Option Nat) (episodes : List AnimeUnityEpisode) :
    Option AnimeUnityEpisode :=
  episodes.find? fun ep => ep.number == jsStringOfOptNat episodeNumber

/-- The stream title built in the series branch:
`capitalize(cleanName)` then ` ITA S`/` SUB S` and the season number, with
`E` and the episode number appended when `episodeNumber` is truthy. -/
def seriesStreamTitle (name language_type : String)
    (seasonNumber episodeNumber : Option Nat) : String :=
  let cn := cleanName name
  let isDub := language_type == "ITA"
  let sNum := jsOrOne seasonNumber
  let base := if isDub then capitalize cn ++ " ITA S" ++ toString sNum
    else capitalize cn ++ " SUB S" ++ toString sNum
  if jsTruthyNat episodeNumber then base ++ "E" ++ toString (episodeNumber.getD 0)
  else base

/-- Body of the series-branch `try` block for one version; `.error` is whatever
the `catch` would receive (a failed scraper call, or `formatMediaFlowUrl`
throwing). -/
def seriesProcessVersionTry (env : ScraperEnv) (cfg : AnimeUnityConfig)
    (seasonNumber episodeNumber : Option Nat) (tv : TaggedVersion) :
    Except String (List StreamForStremio) :=
  match env.get_episodes tv.version.id with
  | .error e => .error e
  | .ok episodes =>
    match seriesTargetEpisode episodeNumber episodes with
    | none => .ok []
    | some targetEpisode =>
      match env.get_stream tv.version.id tv.version.slug targetEpisode.id with
      | .error e => .error e
      | .ok streamResult =>
        if streamResult.mp4_url ≠ "" then
          match formatMediaFlowUrl streamResult.mp4_url cfg.mfpUrl cfg.mfpPassword with
          | none => .error "URIError"
          | some mediaFlowUrl =>
            .ok [{ title := seriesStreamTitle tv.version.name tv.language_type
                     seasonNumber episodeNumber
                   url := mediaFlowUrl
                   behaviorHints := { notWebReady := true } }]
        else .ok []

/-- One iteration of the series-branch loop: the per-version `try`/`catch` turns
any failure into an empty contribution (the error is only logged). -/
def seriesProcessVersion (env : ScraperEnv) (cfg : AnimeUnityConfig)
    (seasonNumber episodeNumber : Option Nat) (tv : TaggedVersion) :
    List StreamForStremio :=
  match seriesProcessVersionTry env cfg seasonNumber episodeNumber tv with
  | .ok l => l
  | .error _ => []

/-- The whole series-branch loop, accumulating pushed streams in version order. -/
def seriesLoop (env : ScraperEnv) (cfg : AnimeUnityConfig)
    (seasonNumber episodeNumber : Option Nat) : List TaggedVersion → List StreamForStremio
  | [] => []
  | tv :: rest =>
    seriesProcessVersion env cfg seasonNumber episodeNumber tv ++
      seriesLoop env cfg seasonNumber episodeNumber rest

/-! ## Series branch of animeunity-provider.tsBK (embed-link variant) -/

/-- Body of the tsBK series-branch `try` block for one version: same as the
current provider except `isDub` compares against `DUB` and, with `bothLink` set
and a nonempty `embed_url`, a second `[E]`-prefixed descriptor is pushed. -/
def seriesProcessVersionBKTry (env : ScraperEnv) (cfg : AnimeUnityConfig)
    (seasonNumber episodeNumber : Option Nat) (tv : TaggedVersion) :
    Except String (List StreamForStremio) :=
  match env.get_episodes tv.version.id with
  | .error e => .error e
  | .ok episodes =>
    match seriesTargetEpisode episodeNumber episodes with
    | none => .ok []
    | some targetEpisode =>
      match env.get_stream tv.version.id tv.version.slug targetEpisode.id with
      | .error e => .error e
      | .ok streamResult =>
        if streamResult.mp4_url ≠ "" then
          match formatMediaFlowUrl streamResult.mp4_url cfg.mfpUrl cfg.mfpPassword with
          | none => .error "URIError"
          | some mediaFlowUrl =>
            let cn := cleanName tv.version.name
            let isDub := tv.language_type == "DUB"
            let sNum := jsOrOne seasonNumber
            let base := if isDub then capitalize cn ++ " ITA S" ++ toString sNum
              else capitalize cn ++ " SUB S" ++ toString sNum
            let streamTitle := if jsTruthyNat episodeNumber then
                base ++ "E" ++ toString (episodeNumber.getD 0)
              else base
            let first : StreamForStremio :=
              { title := streamTitle, url := mediaFlowUrl
                behaviorHints := { notWebReady := true } }
            if cfg.bothLink ∧ streamResult.embed_url ≠ "" then
              .ok [first,
                { title := "[E] " ++ streamTitle, url := streamResult.embed_url
                  behaviorHints := { notWebReady := true } }]
            else .ok [first]
        else .ok []

/-- One iteration of the tsBK series loop, with its per-version `catch`. -/
def seriesProcessVersionBK (env : ScraperEnv) (cfg : AnimeUnityConfig)
    (seasonNumber episodeNumber : Option Nat) (tv : TaggedVersion) :
    List StreamForStremio :=
  match seriesProcessVersionBKTry env cfg seasonNumber episodeNumber tv with
  | .ok l => l
  | .error _ => []

/-! ## Orchestrator (AnimeUnityProvider.handleKitsuRequest, animeunity-provider.ts) -/

/-- Body of the outer `try` block of `handleKitsuRequest`: parse the Kitsu id,
look up the title (absent gives an empty list), run the single search, filter the
main versions, then run the movie or series loop. -/
def handleKitsuRequestTry (env : ScraperEnv) (cfg : AnimeUnityConfig)
    (kitsuIdString : String) : Except String (List StreamForStremio) :=
  match env.parseKitsuId kitsuIdString with
  | .error e => .error e
  | .ok pid =>
    match env.getAnimeInfo pid.kitsuId with
    | .error e => .error e
    | .ok none => .ok []
    | .ok (some animeInfo) =>
      let normalizedTitle := env.normalizeTitle animeInfo.title
      match env.search normalizedTitle with
      | .error e => .error e
      | .ok allResults =>
        let animeVersions := filterMainVersions allResults normalizedTitle
        if animeVersions.isEmpty then .ok []
        else if pid.isMovie then movieLoop env animeVersions
        else .ok (seriesLoop env cfg pid.seasonNumber pid.episodeNumber animeVersions)

/-- Embeds `handleKitsuRequest`: the disabled short-circuit, then the `try` body
with the outer `catch` mapping any thrown error to `{ streams: [] }`.  The result
is `Except` so that the absence of escaping errors is a provable property rather
than a typing artifact. -/
def handleKitsuRequest (env : ScraperEnv) (cfg : AnimeUnityConfig)
    (kitsuIdString : String) : Except String (List StreamForStremio) :=
  if !cfg.enabled then .ok []
  else
    match handleKitsuRequestTry env cfg kitsuIdString with
    | .ok streams => .ok streams
    | .error _ => .ok []

/-! ## Concrete fixtures used by witnesses and counterexamples -/

/-- Base environment whose calls all fail; concrete scenarios override fields. -/
def env0 : ScraperEnv :=
  { parseKitsuId := fun _ => .error "unused"
    getAnimeInfo := fun _ => .error "unused"
    normalizeTitle := fun t => t
    search := fun _ => .error "unused"
    searchDubbed := fun _ => .error "unused"
    get_episodes := fun _ => .error "unused"
    get_stream := fun _ _ _ => .error "unused" }

/-- A plain search result named exactly like the base title. -/
def rFoo : AnimeUnitySearchResult := { id := 1, slug := "slug-a", name := "foo", episodes_count := 12 }

/-- A search result carrying the `(ITA)` name marker. -/
def rFooIta : AnimeUnitySearchResult := { id := 2, slug := "slug-b", name := "foo (ITA)", episodes_count := 12 }

/-- The same upstream id as `rFooIta` under a different slug, as a second variant
search could return it. -/
def rFooIta2 : AnimeUnitySearchResult := { id := 2, slug := "slug-c", name := "foo (ITA)", episodes_count := 12 }

/-- Environment whose two variant searches both return upstream id 2. -/
def envDup : ScraperEnv :=
  { env0 with
    search := fun _ => .ok [rFooIta]
    searchDubbed := fun _ => .ok [rFooIta2] }

/-- Environment where parsing succeeds and the metadata lookup reports absent. -/
def envAbsent : ScraperEnv :=
  { env0 with
    parseKitsuId := fun _ => .ok { kitsuId := "4", seasonNumber := none, episodeNumber := none, isMovie := false }
    getAnimeInfo := fun _ => .ok none }

/-- Movie-request environment with two main versions in which the episode fetch
for the first version fails while the second version resolves to a playable URL. -/
def envMovieFail : ScraperEnv :=
  { env0 with
    parseKitsuId := fun _ => .ok { kitsuId := "5", seasonNumber := none, episodeNumber := none, isMovie := true }
    getAnimeInfo := fun _ => .ok (some { title := "foo" })
    search := fun _ => .ok [rFoo, rFooIta]
    get_episodes := fun aid => if aid = 1 then .error "boom" else .ok [{ id := 10, number := "1" }]
    get_stream := fun _ _ _ => .ok { episode_page := "", embed_url := "", mp4_url := "http://x/v.mp4" } }

/-- Series-request environment (season 1, episode 2) with one main version that
resolves to the playable URL `http://x/v.mp4`. -/
def envSeries : ScraperEnv :=
  { env0 with
    parseKitsuId := fun _ => .ok { kitsuId := "7", seasonNumber := some 1, episodeNumber := some 2, isMovie := false }
    getAnimeInfo := fun _ => .ok (some { title := "foo" })
    search := fun _ => .ok [rFoo]
    get_episodes := fun _ => .ok [{ id := 10, number := "2" }]
    get_stream := fun _ _ _ => .ok { episode_page := "", embed_url := "http://x/embed", mp4_url := "http://x/v.mp4" } }

/-- Series-request environment (season 2, episode 5) whose single main version
carries the `(ITA)` marker. -/
def envSeriesIta : ScraperEnv :=
  { env0 with
    parseKitsuId := fun _ => .ok { kitsuId := "9", seasonNumber := some 2, episodeNumber := some 5, isMovie := false }
    getAnimeInfo := fun _ => .ok (some { title := "foo" })
    search := fun _ => .ok [rFooIta]
    get_episodes := fun _ => .ok [{ id := 11, number := "5" }]
    get_stream := fun _ _ _ => .ok { episode_page := "", embed_url := "", mp4_url := "http://x/v.mp4" } }

/-- Movie-request environment in which every call succeeds and the single
version's episode list contains episode number `1`. -/
def envMovieOk : ScraperEnv :=
  { env0 with
    parseKitsuId := fun _ => .ok { kitsuId := "8", seasonNumber := none, episodeNumber := none, isMovie := true }
    getAnimeInfo := fun _ => .ok (some { title := "foo" })
    search := fun _ => .ok [rFoo]
    get_episodes := fun _ => .ok [{ id := 5, number := "0" }, { id := 6, number := "1" }, { id := 7, number := "1" }]
    get_stream := fun _ _ _ => .ok { episode_page := "", embed_url := "", mp4_url := "http://x/v.mp4" } }

/-- Enabled configuration with a proxy base and credential. -/
def cfgProxy : AnimeUnityConfig :=
  { mfpUrl := "http://proxy", mfpPassword := "pw", bothLink := false, enabled := true }

/-- Enabled configuration with no proxy configured (empty base and credential, the
addon's defaults when the options are unset). -/
def cfgNoProxy : AnimeUnityConfig :=
  { mfpUrl := "", mfpPassword := "", bothLink := false, enabled := true }

/-- Environment whose episode lists never contain the requested number. -/
def envNoMatch : ScraperEnv :=
  { env0 with get_episodes := fun _ => .ok [{ id := 10, number := "3" }] }

/-- The plain-named result as a tagged version. -/
def tvFoo : TaggedVersion := { version := rFoo, language_type := "SUB" }

/-- The marker-named result as a tagged version. -/
def tvIta : TaggedVersion := { version := rFooIta, language_type := "ITA" }

/-! ## Theorems -/

/-- Helper: tagging a search result does not change the wrapped version. -/
theorem tagByName_version (r : AnimeUnitySearchResult) : (tagByName r).version = r := rfl

/-- Helper: filtering the tagged aggregation output by id counts the same as
filtering the raw results by id, since tagging preserves the version. -/
theorem filter_id_map_tag (l : List AnimeUnitySearchResult) (i : Nat) :
    ((l.map tagByName).filter fun tv => tv.version.id == i).length =
      (l.filter fun r => r.id == i).length := by
  induction l with
  | nil => rfl
  | cons a l ih =>
    by_cases h : a.id == i <;>
      simp [List.filter_cons, tagByName_version, h, ih]

/-- C1 (counterexample): the aggregated output is not deduplicated — when both
variant searches return upstream id 2 (here under two different slugs), the
output of `searchAllVersions` contains id 2 twice, so an id does not occur
exactly once. -/
theorem searchAllVersions_duplicate_id_counterexample :
    ((searchAllVersions envDup "foo").map fun tv => tv.version.id) = [2, 2] ∧
    ((searchAllVersions envDup "foo").filter fun tv => tv.version.id == 2).length ≠ 1 := by
  decide

/-- C1 (amended): the aggregator output preserves the variant-search results with
their multiplicities — for every id, its number of occurrences in the output of
`searchAllVersions` equals its occurrences in the plain search plus its
occurrences in the dubbed search (each failed search counting as empty); no
deduplication takes place. -/
theorem searchAllVersions_multiplicity_preserved (env : ScraperEnv) (title : String)
    (i : Nat) :
    ((searchAllVersions env title).filter fun tv => tv.version.id == i).length =
      ((catchEmpty (env.search title)).filter fun r => r.id == i).length +
      ((catchEmpty (env.searchDubbed title)).filter fun r => r.id == i).length := by
  unfold searchAllVersions
  rw [List.map_append, List.filter_append, List.length_append,
    filter_id_map_tag, filter_id_map_tag]

/-- C2 (counterexample): in the fallback branch of `filterMainVersions` (no
exact-name match) the language tag is assigned positionally, so a version whose
display name contains the marker substring `ita` is still tagged `SUB`. -/
theorem filterMainVersions_fallback_marker_counterexample :
    filterMainVersions
        [{ id := 5, slug := "s", name := "capital of italy", episodes_count := 10 }]
        "foo" =
      [{ version := { id := 5, slug := "s", name := "capital of italy", episodes_count := 10 }
         language_type := "SUB" }] ∧
    strContains (jsToLower "capital of italy") "ita" = true := by
  decide

/-- C2 (amended): the language tag reflects the case-insensitive `ita` marker in
the display name for every version aggregated by `searchAllVersions`, and for
every version kept by `filterMainVersions` whenever its exact-name filter is
nonempty; only the positional fallback branch ignores the marker. -/
theorem languageTag_reflects_marker_amended :
    (∀ (env : ScraperEnv) (title : String) (tv : TaggedVersion),
      tv ∈ searchAllVersions env title →
      tv.language_type = if strContains (jsToLower tv.version.name) "ita" then "ITA" else "SUB") ∧
    (∀ (results : List AnimeUnitySearchResult) (base : String) (tv : TaggedVersion),
      mainFiltered results base ≠ [] → tv ∈ filterMainVersions results base →
      tv.language_type = if strContains (jsToLower tv.version.name) "ita" then "ITA" else "SUB") := by
  constructor
  · intro env title tv h
    unfold searchAllVersions at h
    simp only [List.mem_map] at h
    obtain ⟨r, _, rfl⟩ := h
    rfl
  · intro results base tv hne h
    unfold filterMainVersions at h
    rw [if_pos (by simpa using List.length_pos.mpr hne)] at h
    simp only [List.mem_map] at h
    obtain ⟨r, _, rfl⟩ := h
    rfl

/-- C2 (witness): the amended statement applied to a concrete environment (a
marker-named version aggregated by the dubbed search) and to a concrete result
list whose exact-name filter is nonempty (a plain-named version, tagged SUB). -/
theorem languageTag_reflects_marker_amended_witness :
    ((tagByName rFooIta).language_type =
      if strContains (jsToLower (tagByName rFooIta).version.name) "ita" then "ITA" else "SUB") ∧
    ((tagByName rFoo).language_type =
      if strContains (jsToLower (tagByName rFoo).version.name) "ita" then "ITA" else "SUB") :=
  ⟨languageTag_reflects_marker_amended.1 envDup "foo" (tagByName rFooIta) (by decide),
   languageTag_reflects_marker_amended.2 [rFoo] "foo" (tagByName rFoo) (by decide) (by decide)⟩

/-- C3 (confirmed): `handleKitsuRequest` never lets an error escape — for every
environment of (possibly failing) external calls, configuration and input id, it
evaluates to an `ok` stream list, the outer catch mapping any thrown error to the
empty list. -/
theorem handleKitsuRequest_never_throws (env : ScraperEnv) (cfg : AnimeUnityConfig)
    (s : String) : ∃ l, handleKitsuRequest env cfg s = .ok l := by
  unfold handleKitsuRequest
  cases h : cfg.enabled with
  | false => exact ⟨[], by simp [h]⟩
  | true =>
    cases htry : handleKitsuRequestTry env cfg s with
    | ok l => exact ⟨l, by simp [h, htry]⟩
    | error e => exact ⟨[], by simp [h, htry]⟩

/-- C4 (confirmed): when the Kitsu id parses and the metadata lookup reports
absent, `handleKitsuRequest` returns the empty stream list, not an error. -/
theorem handleKitsuRequest_lookup_absent_empty (env : ScraperEnv)
    (cfg : AnimeUnityConfig) (s : String) (pid : ParsedKitsuId)
    (hp : env.parseKitsuId s = .ok pid)
    (hi : env.getAnimeInfo pid.kitsuId = .ok none) :
    handleKitsuRequest env cfg s = .ok [] := by
  unfold handleKitsuRequest handleKitsuRequestTry
  cases h : cfg.enabled <;> simp [h, hp, hi]

/-- C4 (witness): the absent-lookup theorem at a concrete environment. -/
theorem handleKitsuRequest_lookup_absent_empty_witness :
    handleKitsuRequest envAbsent cfgProxy "kitsu:4" = .ok [] :=
  handleKitsuRequest_lookup_absent_empty envAbsent cfgProxy "kitsu:4"
    { kitsuId := "4", seasonNumber := none, episodeNumber := none, isMovie := false }
    rfl rfl

/-- C5 (counterexample): in a movie request with two versions, a failing episode
fetch for the first version aborts the whole loop — the request returns the empty
list even though the second version alone would have contributed a descriptor, so
processing does not continue with the remaining versions. -/
theorem movie_branch_failure_aborts_counterexample :
    handleKitsuRequest envMovieFail cfgProxy "kitsu:5:1" = .ok [] ∧
    envMovieFail.get_episodes rFoo.id = .error "boom" ∧
    movieProcessVersion envMovieFail tvIta =
      .ok [{ title := "🎬 AnimeUnity ITA (Movie)", url := "http://x/v.mp4"
             behaviorHints := { notWebReady := true } }] := by
  decide

/-- C5 (amended): a version with no matching episode contributes zero descriptors
and processing continues in both branches, and in the series branch a per-version
failure is caught so processing also continues; but in the movie branch a failing
external call is not caught per version: it aborts the loop with that error, and
the outer catch then returns the empty list for the whole request. -/
theorem per_version_skip_amended :
    (∀ (env : ScraperEnv) (cfg : AnimeUnityConfig) (sn en : Option Nat)
        (tv : TaggedVersion) (rest : List TaggedVersion),
      seriesLoop env cfg sn en (tv :: rest) =
        seriesProcessVersion env cfg sn en tv ++ seriesLoop env cfg sn en rest) ∧
    (∀ (env : ScraperEnv) (cfg : AnimeUnityConfig) (sn en : Option Nat)
        (tv : TaggedVersion) (e : String),
      env.get_episodes tv.version.id = .error e →
      seriesProcessVersion env cfg sn en tv = []) ∧
    (∀ (env : ScraperEnv) (cfg : AnimeUnityConfig) (sn en : Option Nat)
        (tv : TaggedVersion) (eps : List AnimeUnityEpisode),
      env.get_episodes tv.version.id = .ok eps →
      seriesTargetEpisode en eps = none →
      seriesProcessVersion env cfg sn en tv = []) ∧
    (∀ (env : ScraperEnv) (tv : TaggedVersion) (rest : List TaggedVersion)
        (eps : List AnimeUnityEpisode),
      env.get_episodes tv.version.id = .ok eps →
      movieTargetEpisode eps = none →
      movieLoop env (tv :: rest) = movieLoop env rest) ∧
    (∀ (env : ScraperEnv) (tv : TaggedVersion) (rest : List TaggedVersion) (e : String),
      env.get_episodes tv.version.id = .error e →
      movieLoop env (tv :: rest) = .error e) ∧
    (∀ (env : ScraperEnv) (cfg : AnimeUnityConfig) (s e : String),
      handleKitsuRequestTry env cfg s = .error e →
      handleKitsuRequest env cfg s = .ok []) := by
  refine ⟨fun env cfg sn en tv rest => rfl, ?_, ?_, ?_, ?_, ?_⟩
  · intro env cfg sn en tv e h
    simp [seriesProcessVersion, seriesProcessVersionTry, h]
  · intro env cfg sn en tv eps h1 h2
    simp [seriesProcessVersion, seriesProcessVersionTry, h1, h2]
  · intro env tv rest eps h1 h2
    simp only [movieLoop, movieProcessVersion, h1, h2]
    cases hr : movieLoop env rest <;> simp [hr]
  · intro env tv rest e h
    simp [movieLoop, movieProcessVersion, h]
  · intro env cfg s e h
    cases hc : cfg.enabled <;> simp [handleKitsuRequest, hc, h]

/-- C5 (witness): the amended statement's conditional parts applied at concrete
inputs — a failing series version, a no-match series version, a no-match movie
version, a failing movie version, and a failing request body. -/
theorem per_version_skip_amended_witness :
    seriesProcessVersion env0 cfgProxy (some 1) (some 2) tvFoo = [] ∧
    seriesProcessVersion envNoMatch cfgProxy (some 1) (some 2) tvFoo = [] ∧
    movieLoop envNoMatch [tvFoo] = movieLoop envNoMatch [] ∧
    movieLoop envMovieFail [tvFoo, tvIta] = .error "boom" ∧
    handleKitsuRequest env0 cfgProxy "kitsu:0" = .ok [] :=
  ⟨per_version_skip_amended.2.1 env0 cfgProxy (some 1) (some 2) tvFoo "unused" rfl,
   per_version_skip_amended.2.2.1 envNoMatch cfgProxy (some 1) (some 2) tvFoo
     [{ id := 10, number := "3" }] rfl rfl,
   per_version_skip_amended.2.2.2.1 envNoMatch tvFoo []
     [{ id := 10, number := "3" }] rfl rfl,
   per_version_skip_amended.2.2.2.2.1 envMovieFail tvFoo [tvIta] "boom" (by decide),
   per_version_skip_amended.2.2.2.2.2 env0 cfgProxy "kitsu:0" "unused" rfl⟩

/-- C6 (counterexample): the code's filename extraction is the regex
`/filename=([^&]+)/` applied anywhere in the raw URL, not a `filename=` query
parameter — on a URL whose path contains `filename=` but which has no query at
all, the code produces filename `a/b.mp4` while the claim's reading produces the
last path segment `b.mp4`, so the claimed formula does not hold. -/
theorem formatMediaFlowUrl_filename_anywhere_counterexample :
    formatMediaFlowUrl "http://x/filename=a/b.mp4" "http://proxy" "pw" =
      some "http://proxy/proxy/stream/a/b.mp4?d=http%3A%2F%2Fx%2Ffilename%3Da%2Fb.mp4&api_password=pw" ∧
    formatMediaFlowUrlClaimed "http://x/filename=a/b.mp4" "http://proxy" "pw" =
      some "http://proxy/proxy/stream/b.mp4?d=http%3A%2F%2Fx%2Ffilename%3Da%2Fb.mp4&api_password=pw" ∧
    formatMediaFlowUrl "http://x/filename=a/b.mp4" "http://proxy" "pw" ≠
      formatMediaFlowUrlClaimed "http://x/filename=a/b.mp4" "http://proxy" "pw" := by
  decide

/-- C6 (amended): the rewrite returns
`{base}/proxy/stream/{filename}?d={encodeURIComponent(rawUrl)}&api_password={cred}`
where filename is the decoded capture of the first `filename=` occurrence
anywhere in the raw URL (not only as a query parameter) when one with a nonempty
non-`&` run exists, and otherwise the last path segment of the parsed URL path
(`video.mp4` when that segment is empty); the claim's concrete example holds. -/
theorem formatMediaFlowUrl_characterization :
    (∀ raw base pw : String,
      formatMediaFlowUrl raw base pw = (extractFilename raw).map fun f =>
        base ++ "/proxy/stream/" ++ f ++ "?d=" ++ encodeURIComponent raw ++
          "&api_password=" ++ pw) ∧
    (∀ (url : String) (cap : List Char), findFilenameMatch url.data = some cap →
      extractFilename url = decodeURIComponent (String.mk cap)) ∧
    (∀ url : String, findFilenameMatch url.data = none →
      extractFilename url = (urlPathname url).map fun p =>
        if String.mk ((splitOnChar '/' p.data).getLastD []) = "" then "video.mp4"
        else String.mk ((splitOnChar '/' p.data).getLastD [])) ∧
    formatMediaFlowUrl "http://x/video.mp4" "http://proxy" "pw123" =
      some "http://proxy/proxy/stream/video.mp4?d=http%3A%2F%2Fx%2Fvideo.mp4&api_password=pw123" := by
  refine ⟨fun raw base pw => rfl, ?_, ?_, by decide⟩
  · intro url cap h
    simp [extractFilename, h]
  · intro url h
    simp [extractFilename, h]

/-- C6 (witness): the filename characterization applied at concrete URLs — one
with a `filename=` match and one falling back to the last path segment. -/
theorem formatMediaFlowUrl_characterization_witness :
    extractFilename "http://x/a?filename=f%20g.mp4&z=1" =
      decodeURIComponent (String.mk "f%20g.mp4".data) ∧
    extractFilename "http://x/video.mp4" =
      ((urlPathname "http://x/video.mp4").map fun p =>
        if String.mk ((splitOnChar '/' p.data).getLastD []) = "" then "video.mp4"
        else String.mk ((splitOnChar '/' p.data).getLastD [])) :=
  ⟨formatMediaFlowUrl_characterization.2.1 "http://x/a?filename=f%20g.mp4&z=1"
      "f%20g.mp4".data (by decide),
   formatMediaFlowUrl_characterization.2.2.1 "http://x/video.mp4" (by decide)⟩

/-- C7 (counterexample): with no proxy configured (empty base and credential),
the series branch still applies the proxy rewrite — the emitted url is the
rewritten form with empty host and credential, not the raw URL `http://x/v.mp4`
unchanged. -/
theorem series_rewrite_unconditional_counterexample :
    handleKitsuRequest envSeries cfgNoProxy "kitsu:7:1:2" =
      .ok [{ title := "Foo SUB S1E2"
             url := "/proxy/stream/v.mp4?d=http%3A%2F%2Fx%2Fv.mp4&api_password="
             behaviorHints := { notWebReady := true } }] ∧
    ("/proxy/stream/v.mp4?d=http%3A%2F%2Fx%2Fv.mp4&api_password=" : String) ≠
      "http://x/v.mp4" := by
  decide

/-- C7 (amended): no configuration check governs the rewrite — every descriptor
emitted by the series branch carries a URL produced by `formatMediaFlowUrl` with
the configured (possibly empty) base and credential, and every descriptor emitted
by the movie branch carries the raw resolved `mp4_url` unchanged regardless of
the configuration. -/
theorem proxy_rewrite_unconditional_amended :
    (∀ (env : ScraperEnv) (cfg : AnimeUnityConfig) (sn en : Option Nat)
        (tv : TaggedVersion) (s : StreamForStremio),
      s ∈ seriesProcessVersion env cfg sn en tv →
      ∃ raw : String, formatMediaFlowUrl raw cfg.mfpUrl cfg.mfpPassword = some s.url) ∧
    (∀ (env : ScraperEnv) (tv : TaggedVersion) (l : List StreamForStremio)
        (s : StreamForStremio),
      movieProcessVersion env tv = .ok l → s ∈ l →
      ∃ (ep : AnimeUnityEpisode) (sd : AnimeUnityStreamData),
        env.get_stream tv.version.id tv.version.slug ep.id = .ok sd ∧
        s.url = sd.mp4_url) := by
  constructor
  · intro env cfg sn en tv s h
    unfold seriesProcessVersion at h
    cases htry : seriesProcessVersionTry env cfg sn en tv with
    | error e => rw [htry] at h; simp at h
    | ok l =>
      rw [htry] at h
      unfold seriesProcessVersionTry at htry
      cases he : env.get_episodes tv.version.id with
      | error e => simp [he] at htry
      | ok eps =>
        simp only [he] at htry
        cases hf : seriesTargetEpisode en eps with
        | none => simp only [hf] at htry; cases htry; simp at h
        | some te =>
          simp only [hf] at htry
          cases hs : env.get_stream tv.version.id tv.version.slug te.id with
          | error e => simp [hs] at htry
          | ok sd =>
            simp only [hs] at htry
            by_cases hm : sd.mp4_url = ""
            · rw [if_neg (by simpa using hm)] at htry
              cases htry; simp at h
            · rw [if_pos hm] at htry
              cases hfmt : formatMediaFlowUrl sd.mp4_url cfg.mfpUrl cfg.mfpPassword with
              | none => simp [hfmt] at htry
              | some u =>
                simp only [hfmt] at htry
                cases htry
                rw [List.mem_singleton] at h
                subst h
                exact ⟨sd.mp4_url, hfmt⟩
  · intro env tv l s hpv h
    unfold movieProcessVersion at hpv
    cases he : env.get_episodes tv.version.id with
    | error e => simp [he] at hpv
    | ok eps =>
      simp only [he] at hpv
      cases hf : movieTargetEpisode eps with
      | none => simp only [hf] at hpv; cases hpv; simp at h
      | some te =>
        simp only [hf] at hpv
        cases hs : env.get_stream tv.version.id tv.version.slug te.id with
        | error e => simp [hs] at hpv
        | ok sd =>
          simp only [hs] at hpv
          by_cases hm : sd.mp4_url = ""
          · rw [if_neg (by simpa using hm)] at hpv
            cases hpv; simp at h
          · rw [if_pos hm] at hpv
            cases hpv
            rw [List.mem_singleton] at h
            subst h
            exact ⟨te, sd, hs, rfl⟩

/-- C7 (witness): the amended statement applied to the concrete series and movie
scenarios. -/
theorem proxy_rewrite_unconditional_amended_witness :
    (∃ raw : String, formatMediaFlowUrl raw cfgNoProxy.mfpUrl cfgNoProxy.mfpPassword =
      some ({ title := "Foo SUB S1E2"
              url := "/proxy/stream/v.mp4?d=http%3A%2F%2Fx%2Fv.mp4&api_password="
              behaviorHints := { notWebReady := true } } : StreamForStremio).url) ∧
    (∃ (ep : AnimeUnityEpisode) (sd : AnimeUnityStreamData),
      envMovieFail.get_stream tvIta.version.id tvIta.version.slug ep.id = .ok sd ∧
      ({ title := "🎬 AnimeUnity ITA (Movie)", url := "http://x/v.mp4"
         behaviorHints := { notWebReady := true } } : StreamForStremio).url = sd.mp4_url) :=
  ⟨proxy_rewrite_unconditional_amended.1 envSeries cfgNoProxy (some 1) (some 2)
      (tagByName rFoo) _ (by decide),
   proxy_rewrite_unconditional_amended.2 envMovieFail tvIta
     [{ title := "🎬 AnimeUnity ITA (Movie)", url := "http://x/v.mp4"
        behaviorHints := { notWebReady := true } }]
     { title := "🎬 AnimeUnity ITA (Movie)", url := "http://x/v.mp4"
       behaviorHints := { notWebReady := true } }
     (by decide) (by decide)⟩

/-- Helper: one movie iteration only reads the scraper fields of the
environment, so replacing the id parser leaves it unchanged. -/
theorem movieProcessVersion_parse_irrel (env : ScraperEnv)
    (f : String → Except String ParsedKitsuId) (tv : TaggedVersion) :
    movieProcessVersion { env with parseKitsuId := f } tv =
      movieProcessVersion env tv := rfl

/-- Helper: the movie loop only reads the scraper fields of the environment, so
replacing the id parser leaves it unchanged. -/
theorem movieLoop_parse_irrel (env : ScraperEnv)
    (f : String → Except String ParsedKitsuId) (l : List TaggedVersion) :
    movieLoop { env with parseKitsuId := f } l = movieLoop env l := by
  induction l with
  | nil => rfl
  | cons tv rest ih =>
    simp only [movieLoop, movieProcessVersion_parse_irrel, ih]

/-- Helper: one series iteration only reads the scraper fields of the
environment, so replacing the id parser leaves it unchanged. -/
theorem seriesProcessVersion_parse_irrel (env : ScraperEnv)
    (f : String → Except String ParsedKitsuId) (cfg : AnimeUnityConfig)
    (sn en : Option Nat) (tv : TaggedVersion) :
    seriesProcessVersion { env with parseKitsuId := f } cfg sn en tv =
      seriesProcessVersion env cfg sn en tv := rfl

/-- Helper: the series loop is unchanged by replacing the id parser. -/
theorem seriesLoop_parse_irrel (env : ScraperEnv)
    (f : String → Except String ParsedKitsuId) (cfg : AnimeUnityConfig)
    (sn en : Option Nat) (l : List TaggedVersion) :
    seriesLoop { env with parseKitsuId := f } cfg sn en l =
      seriesLoop env cfg sn en l := by
  induction l with
  | nil => rfl
  | cons tv rest ih =>
    simp only [seriesLoop, ih, seriesProcessVersion_parse_irrel]

/-- C8 (confirmed): the movie branch matches the literal episode number string
`1` exactly — any selected episode has number `1`, an episode list containing a
number-`1` episode always yields a selection, and for a movie-type id the whole
request is independent of the parsed season/episode fields (replacing them by any
values, absent included, leaves the result unchanged). -/
theorem movie_exact_episode_one_match :
    (∀ (eps : List AnimeUnityEpisode) (e : AnimeUnityEpisode),
      movieTargetEpisode eps = some e → e.number = "1") ∧
    (∀ eps : List AnimeUnityEpisode, (∃ e, e ∈ eps ∧ e.number = "1") →
      ∃ e, movieTargetEpisode eps = some e ∧ e.number = "1") ∧
    (∀ (env : ScraperEnv) (cfg : AnimeUnityConfig) (s : String)
        (pid : ParsedKitsuId) (sn en : Option Nat),
      env.parseKitsuId s = .ok pid → pid.isMovie = true →
      handleKitsuRequest
        { env with parseKitsuId := fun x => (env.parseKitsuId x).map fun p =>
            { p with seasonNumber := sn, episodeNumber := en } } cfg s =
      handleKitsuRequest env cfg s) := by
  refine ⟨?_, ?_, ?_⟩
  · intro eps e h
    have := List.find?_some h
    simpa using this
  · intro eps h
    obtain ⟨e, hmem, hnum⟩ := h
    have hsome : (eps.find? fun ep => ep.number == "1").isSome := by
      rw [List.find?_isSome]
      exact ⟨e, hmem, by simp [hnum]⟩
    obtain ⟨e1, he1⟩ := Option.isSome_iff_exists.mp hsome
    refine ⟨e1, he1, ?_⟩
    have := List.find?_some he1
    simpa using this
  · intro env cfg s pid sn en hp hm
    unfold handleKitsuRequest handleKitsuRequestTry
    cases hi : env.getAnimeInfo pid.kitsuId with
    | error e => simp [hp, hi, Except.map]
    | ok oinfo =>
      cases oinfo with
      | none => simp [hp, hi, Except.map]
      | some info =>
        cases hs : env.search (env.normalizeTitle info.title) with
        | error e => simp [hp, hi, hs, Except.map]
        | ok allResults =>
          by_cases hv :
              filterMainVersions allResults (env.normalizeTitle info.title) = []
          · simp [hp, hi, hs, hv, Except.map, List.isEmpty_iff]
          · simp [hp, hi, hs, hv, hm, Except.map, List.isEmpty_iff,
              movieLoop_parse_irrel]

/-- C8 (witness): the exact-match statements at a concrete episode list and the
independence statement at a concrete movie request. -/
theorem movie_exact_episode_one_match_witness :
    ({ id := 6, number := "1", name := none } : AnimeUnityEpisode).number = "1" ∧
    (∃ e, movieTargetEpisode
        [{ id := 5, number := "0" }, { id := 6, number := "1" }, { id := 7, number := "1" }] =
        some e ∧ e.number = "1") ∧
    handleKitsuRequest
      { envMovieOk with parseKitsuId := fun x => (envMovieOk.parseKitsuId x).map fun p =>
          { p with seasonNumber := some 3, episodeNumber := some 4 } }
      cfgProxy "kitsu:8" =
    handleKitsuRequest envMovieOk cfgProxy "kitsu:8" :=
  ⟨movie_exact_episode_one_match.1
      [{ id := 5, number := "0" }, { id := 6, number := "1" }, { id := 7, number := "1" }]
      { id := 6, number := "1", name := none } (by decide),
   movie_exact_episode_one_match.2.1
      [{ id := 5, number := "0" }, { id := 6, number := "1" }, { id := 7, number := "1" }]
      ⟨{ id := 6, number := "1", name := none }, by decide, rfl⟩,
   movie_exact_episode_one_match.2.2 envMovieOk cfgProxy "kitsu:8"
      { kitsuId := "8", seasonNumber := none, episodeNumber := none, isMovie := true }
      (some 3) (some 4) rfl rfl⟩

/-- C9 (counterexample): the series display title interpolates the season and
episode numbers without padding — a season-1 episode-5 request under the
marker-named version yields `Foo ITA S2E5`-style titles, not the zero-padded
`S02E05` form the claim requires. -/
theorem series_title_no_padding_counterexample :
    handleKitsuRequest envSeriesIta cfgProxy "kitsu:9:2:5" =
      .ok [{ title := "Foo ITA S2E5"
             url := "http://proxy/proxy/stream/v.mp4?d=http%3A%2F%2Fx%2Fv.mp4&api_password=pw"
             behaviorHints := { notWebReady := true } }] ∧
    ("Foo ITA S2E5" : String) ≠ "Foo ITA S02E05" := by
  decide

/-- C9 (amended): every series-branch descriptor's title is the capitalized
cleaned version name, the tag segment ` ITA S`/` SUB S`, the season number
(defaulted to 1, no padding), and — only when the episode number is truthy —
`E` plus the episode number, again without padding. -/
theorem series_title_format_amended (env : ScraperEnv) (cfg : AnimeUnityConfig)
    (sn en : Option Nat) (tv : TaggedVersion) (s : StreamForStremio)
    (h : s ∈ seriesProcessVersion env cfg sn en tv) :
    s.title =
      (if tv.language_type == "ITA" then
        capitalize (cleanName tv.version.name) ++ " ITA S" ++ toString (jsOrOne sn)
      else
        capitalize (cleanName tv.version.name) ++ " SUB S" ++ toString (jsOrOne sn)) ++
      (if jsTruthyNat en then "E" ++ toString (en.getD 0) else "") := by
  unfold seriesProcessVersion at h
  cases htry : seriesProcessVersionTry env cfg sn en tv with
  | error e => rw [htry] at h; simp at h
  | ok l =>
    rw [htry] at h
    unfold seriesProcessVersionTry at htry
    cases he : env.get_episodes tv.version.id with
    | error e => simp [he] at htry
    | ok eps =>
      simp only [he] at htry
      cases hf : seriesTargetEpisode en eps with
      | none => simp only [hf] at htry; cases htry; simp at h
      | some te =>
        simp only [hf] at htry
        cases hs : env.get_stream tv.version.id tv.version.slug te.id with
        | error e => simp [hs] at htry
        | ok sd =>
          simp only [hs] at htry
          by_cases hm : sd.mp4_url = ""
          · rw [if_neg (by simpa using hm)] at htry
            cases htry; simp at h
          · rw [if_pos hm] at htry
            cases hfmt : formatMediaFlowUrl sd.mp4_url cfg.mfpUrl cfg.mfpPassword with
            | none => simp [hfmt] at htry
            | some u =>
              simp only [hfmt] at htry
              cases htry
              rw [List.mem_singleton] at h
              subst h
              unfold seriesStreamTitle
              by_cases ht : jsTruthyNat en
              · simp [ht, String.append_assoc]
              · simp [ht]

/-- C9 (witness): the title-format statement at the concrete marker-named
series scenario. -/
theorem series_title_format_amended_witness :
    (({ title := "Foo ITA S2E5"
        url := "http://proxy/proxy/stream/v.mp4?d=http%3A%2F%2Fx%2Fv.mp4&api_password=pw"
        behaviorHints := { notWebReady := true } } : StreamForStremio)).title =
      (if (tagByName rFooIta).language_type == "ITA" then
        capitalize (cleanName (tagByName rFooIta).version.name) ++ " ITA S" ++
          toString (jsOrOne (some 2))
      else
        capitalize (cleanName (tagByName rFooIta).version.name) ++ " SUB S" ++
          toString (jsOrOne (some 2))) ++
      (if jsTruthyNat (some 5) then "E" ++ toString ((some 5).getD 0) else "") :=
  series_title_format_amended envSeriesIta cfgProxy (some 2) (some 5)
    (tagByName rFooIta) _ (by decide)

/-- Helper: every descriptor pushed by one movie iteration has the flag set. -/
theorem notWebReady_movieProcessVersion (env : ScraperEnv) (tv : TaggedVersion)
    (l : List StreamForStremio) (h : movieProcessVersion env tv = .ok l) :
    ∀ d ∈ l, d.behaviorHints.notWebReady = true := by
  unfold movieProcessVersion at h
  cases he : env.get_episodes tv.version.id with
  | error e => simp [he] at h
  | ok eps =>
    simp only [he] at h
    cases hf : movieTargetEpisode eps with
    | none => simp only [hf] at h; cases h; simp
    | some te =>
      simp only [hf] at h
      cases hs : env.get_stream tv.version.id tv.version.slug te.id with
      | error e => simp [hs] at h
      | ok sd =>
        simp only [hs] at h
        by_cases hm : sd.mp4_url = ""
        · rw [if_neg (by simpa using hm)] at h
          cases h; simp
        · rw [if_pos hm] at h
          cases h
          intro d hd
          rw [List.mem_singleton] at hd
          subst hd
          rfl

/-- Helper: every descriptor accumulated by the movie loop has the flag set. -/
theorem notWebReady_movieLoop (env : ScraperEnv) (vs : List TaggedVersion)
    (l : List StreamForStremio) (h : movieLoop env vs = .ok l) :
    ∀ d ∈ l, d.behaviorHints.notWebReady = true := by
  induction vs generalizing l with
  | nil => cases h; simp
  | cons tv rest ih =>
    unfold movieLoop at h
    cases hv : movieProcessVersion env tv with
    | error e => simp [hv] at h
    | ok s =>
      simp only [hv] at h
      cases hr : movieLoop env rest with
      | error e => simp [hr] at h
      | ok r =>
        simp only [hr] at h
        cases h
        intro d hd
        rcases List.mem_append.mp hd with hd1 | hd2
        · exact notWebReady_movieProcessVersion env tv s hv d hd1
        · exact ih r hr d hd2

/-- Helper: every descriptor pushed by one series iteration has the flag set. -/
theorem notWebReady_seriesProcessVersion (env : ScraperEnv) (cfg : AnimeUnityConfig)
    (sn en : Option Nat) (tv : TaggedVersion) :
    ∀ d ∈ seriesProcessVersion env cfg sn en tv,
      d.behaviorHints.notWebReady = true := by
  unfold seriesProcessVersion
  cases htry : seriesProcessVersionTry env cfg sn en tv with
  | error e => simp
  | ok l =>
    unfold seriesProcessVersionTry at htry
    cases he : env.get_episodes tv.version.id with
    | error e => simp [he] at htry
    | ok eps =>
      simp only [he] at htry
      cases hf : seriesTargetEpisode en eps with
      | none => simp only [hf] at htry; cases htry; simp
      | some te =>
        simp only [hf] at htry
        cases hs : env.get_stream tv.version.id tv.version.slug te.id with
        | error e => simp [hs] at htry
        | ok sd =>
          simp only [hs] at htry
          by_cases hm : sd.mp4_url = ""
          · rw [if_neg (by simpa using hm)] at htry
            cases htry; simp
          · rw [if_pos hm] at htry
            cases hfmt : formatMediaFlowUrl sd.mp4_url cfg.mfpUrl cfg.mfpPassword with
            | none => simp [hfmt] at htry
            | some u =>
              simp only [hfmt] at htry
              cases htry
              intro d hd
              rw [List.mem_singleton] at hd
              subst hd
              rfl

/-- Helper: every descriptor accumulated by the series loop has the flag set. -/
theorem notWebReady_seriesLoop (env : ScraperEnv) (cfg : AnimeUnityConfig)
    (sn en : Option Nat) (vs : List TaggedVersion) :
    ∀ d ∈ seriesLoop env cfg sn en vs, d.behaviorHints.notWebReady = true := by
  induction vs with
  | nil => simp [seriesLoop]
  | cons tv rest ih =>
    intro d hd
    unfold seriesLoop at hd
    rcases List.mem_append.mp hd with hd1 | hd2
    · exact notWebReady_seriesProcessVersion env cfg sn en tv d hd1
    · exact ih d hd2

/-- Helper: every descriptor produced by the request body has the flag set. -/
theorem notWebReady_handleKitsuRequestTry (env : ScraperEnv) (cfg : AnimeUnityConfig)
    (s : String) (l : List StreamForStremio)
    (h : handleKitsuRequestTry env cfg s = .ok l) :
    ∀ d ∈ l, d.behaviorHints.notWebReady = true := by
  unfold handleKitsuRequestTry at h
  cases hp : env.parseKitsuId s with
  | error e => simp [hp] at h
  | ok pid =>
    simp only [hp] at h
    cases hi : env.getAnimeInfo pid.kitsuId with
    | error e => simp [hi] at h
    | ok oinfo =>
      simp only [hi] at h
      cases oinfo with
      | none => cases h; simp
      | some info =>
        cases hs : env.search (env.normalizeTitle info.title) with
        | error e => simp [hs] at h
        | ok allResults =>
          simp only [hs] at h
          by_cases hv :
              (filterMainVersions allResults (env.normalizeTitle info.title)).isEmpty
          · rw [if_pos hv] at h; cases h; simp
          · rw [if_neg hv] at h
            by_cases hmov : pid.isMovie
            · rw [if_pos hmov] at h
              exact notWebReady_movieLoop env _ l h
            · rw [if_neg hmov] at h
              cases h
              exact notWebReady_seriesLoop env cfg pid.seasonNumber pid.episodeNumber _

/-- C10 (confirmed): every stream descriptor emitted by `handleKitsuRequest`
(movie or series branch), and every descriptor pushed by the tsBK series
iteration including the extra `[E]` embed-link descriptor, has
`behaviorHints.notWebReady` set to `true`. -/
theorem all_streams_notWebReady :
    (∀ (env : ScraperEnv) (cfg : AnimeUnityConfig) (s : String)
        (l : List StreamForStremio) (d : StreamForStremio),
      handleKitsuRequest env cfg s = .ok l → d ∈ l →
      d.behaviorHints.notWebReady = true) ∧
    (∀ (env : ScraperEnv) (cfg : AnimeUnityConfig) (sn en : Option Nat)
        (tv : TaggedVersion) (d : StreamForStremio),
      d ∈ seriesProcessVersionBK env cfg sn en tv →
      d.behaviorHints.notWebReady = true) := by
  constructor
  · intro env cfg s l d h hd
    unfold handleKitsuRequest at h
    by_cases hc : cfg.enabled
    · rw [if_neg (by simpa using hc)] at h
      cases htry : handleKitsuRequestTry env cfg s with
      | error e => rw [htry] at h; cases h; simp at hd
      | ok l1 =>
        rw [htry] at h
        cases h
        exact notWebReady_handleKitsuRequestTry env cfg s _ htry d hd
    · rw [if_pos (by simpa using hc)] at h
      cases h; simp at hd
  · intro env cfg sn en tv d hd
    unfold seriesProcessVersionBK at hd
    cases htry : seriesProcessVersionBKTry env cfg sn en tv with
    | error e => rw [htry] at hd; simp at hd
    | ok l =>
      rw [htry] at hd
      unfold seriesProcessVersionBKTry at htry
      cases he : env.get_episodes tv.version.id with
      | error e => simp [he] at htry
      | ok eps =>
        simp only [he] at htry
        cases hf : seriesTargetEpisode en eps with
        | none => simp only [hf] at htry; cases htry; simp at hd
        | some te =>
          simp only [hf] at htry
          cases hs : env.get_stream tv.version.id tv.version.slug te.id with
          | error e => simp [hs] at htry
          | ok sd =>
            simp only [hs] at htry
            by_cases hm : sd.mp4_url = ""
            · rw [if_neg (by simpa using hm)] at htry
              cases htry; simp at hd
            · rw [if_pos hm] at htry
              cases hfmt : formatMediaFlowUrl sd.mp4_url cfg.mfpUrl cfg.mfpPassword with
              | none => simp [hfmt] at htry
              | some u =>
                simp only [hfmt] at htry
                by_cases hb : cfg.bothLink ∧ sd.embed_url ≠ ""
                · rw [if_pos hb] at htry
                  cases htry
                  rcases List.mem_cons.mp hd with rfl | hd2
                  · rfl
                  · rcases List.mem_cons.mp hd2 with rfl | hd3
                    · rfl
                    · simp at hd3
                · rw [if_neg hb] at htry
                  cases htry
                  rw [List.mem_singleton] at hd
                  subst hd
                  rfl

/-- C10 (witness): the invariant applied at the concrete marker-named series
request and at a concrete tsBK iteration that pushes both the proxied and the
embed descriptor. -/
theorem all_streams_notWebReady_witness :
    (({ title := "Foo ITA S2E5"
        url := "http://proxy/proxy/stream/v.mp4?d=http%3A%2F%2Fx%2Fv.mp4&api_password=pw"
        behaviorHints := { notWebReady := true } } : StreamForStremio)).behaviorHints.notWebReady = true ∧
    (({ title := "[E] Foo SUB S1E2", url := "http://x/embed"
        behaviorHints := { notWebReady := true } } : StreamForStremio)).behaviorHints.notWebReady = true :=
  ⟨all_streams_notWebReady.1 envSeriesIta cfgProxy "kitsu:9:2:5"
      [{ title := "Foo ITA S2E5"
         url := "http://proxy/proxy/stream/v.mp4?d=http%3A%2F%2Fx%2Fv.mp4&api_password=pw"
         behaviorHints := { notWebReady := true } }]
      { title := "Foo ITA S2E5"
        url := "http://proxy/proxy/stream/v.mp4?d=http%3A%2F%2Fx%2Fv.mp4&api_password=pw"
        behaviorHints := { notWebReady := true } }
      (by decide) (by decide),
   all_streams_notWebReady.2 envSeries { cfgProxy with bothLink := true }
      (some 1) (some 2) tvFoo
      { title := "[E] Foo SUB S1E2", url := "http://x/embed"
        behaviorHints := { notWebReady := true } }
      (by decide)⟩

end StreamVix
